import Mathlib

/-!
Verification development for the `climatecom` CLI (Climate FieldView CLI).

Shallow embedding of the program's data model and operations:
* JSON values (the decoded HTTP response bodies) are modelled by `Json`;
  numeric literals are modelled as integers — no fractional number appears
  in any of the verified claims.
* JavaScript string operations (`substring`, `padEnd`, `.length`,
  template-literal coercion, `JSON.stringify`) are modelled over the
  character list of a Lean `String`; all strings involved are ASCII, where
  JavaScript UTF-16 lengths and Lean character counts agree.
* Terminal output is modelled as a list of printed lines; chalk color
  wrappers are identity (the spec places color formatting out of scope),
  and ora spinner output (stderr UI) is likewise out of scope.
-/

namespace Climatecom

/-- JSON value as decoded from an HTTP response body.  Numbers are
modelled as integers; fractional literals do not occur in the claims. -/
inductive Json where
  | null
  | bool (b : Bool)
  | num (n : Int)
  | str (s : String)
  | arr (elems : List Json)
  | obj (fields : List (String × Json))

/-- JavaScript truthiness of a value (`undefined` is handled separately as
`Option.none` where member accesses can miss). -/
def jsTruthy : Json → Bool
  | .null => false
  | .bool b => b
  | .num n => n != 0
  | .str s => !s.isEmpty
  | .arr _ => true
  | .obj _ => true

/-- Truthiness of a possibly-`undefined` value: `none` models `undefined`. -/
def jsTruthyOpt : Option Json → Bool
  | none => false
  | some v => jsTruthy v

/-- Optional-chaining member access `v?.k`: field lookup on objects, and
`undefined` (`none`) on every non-object value, without throwing. -/
def jsMemberOpt : Json → String → Option Json
  | .obj fs, k => (fs.find? (fun p => p.1 = k)).map (fun p => p.2)
  | _, _ => none

/-- Plain member access `v.k`, which throws a `TypeError` when the receiver
is `null` (the only non-object receiver the code can meet that throws). -/
def jsMemberChecked : Json → String → Except String (Option Json)
  | .null, _ => .error "TypeError: Cannot read properties of null"
  | .obj fs, k => .ok ((fs.find? (fun p => p.1 = k)).map (fun p => p.2))
  | _, _ => .ok none

/-- Field lookup in an object's field list (first occurrence; JSON-parsed
objects carry no duplicate keys). -/
def lookupField (fs : List (String × Json)) (k : String) : Option Json :=
  (fs.find? (fun p => p.1 = k)).map (fun p => p.2)

/-- JavaScript `String.prototype.substring(0, n)` on ASCII strings. -/
def jsSub (s : String) (n : Nat) : String :=
  String.mk (s.data.take n)

/-- JavaScript string length (UTF-16 units; ASCII ⇒ character count). -/
def jsLen (s : String) : Nat :=
  s.data.length

/-- JavaScript `String.prototype.padEnd(n)` with spaces. -/
def jsPadEnd (s : String) (n : Nat) : String :=
  String.mk (s.data ++ List.replicate (n - s.data.length) ' ')

/-- JavaScript `Array.prototype.join(sep)` on already-stringified parts. -/
def joinSep (sep : String) : List String → String
  | [] => ""
  | [x] => x
  | x :: xs => x ++ sep ++ joinSep sep xs

mutual

/-- JavaScript `String(v)` / template-literal coercion of a value. -/
def jsDisplay : Json → String
  | .null => "null"
  | .bool b => cond b "true" "false"
  | .num n => toString n
  | .str s => s
  | .arr xs => jsDisplayItems xs
  | .obj _ => "[object Object]"

/-- `Array.prototype.toString`: elements joined with commas, `null`
elements displayed as the empty string. -/
def jsDisplayItems : List Json → String
  | [] => ""
  | [.null] => ""
  | [x] => jsDisplay x
  | .null :: xs => "," ++ jsDisplayItems xs
  | x :: xs => jsDisplay x ++ "," ++ jsDisplayItems xs

end

/-- Lower-case hexadecimal digit. -/
def hexDigit (n : Nat) : Char :=
  if n < 10 then Char.ofNat (48 + n) else Char.ofNat (87 + n)

/-- JSON string escaping of one character, per `JSON.stringify`. -/
def escapeChar (c : Char) : String :=
  if c = '"' then "\\\""
  else if c = '\\' then "\\\\"
  else if c = '\n' then "\\n"
  else if c = '\r' then "\\r"
  else if c = '\t' then "\\t"
  else if c.toNat = 8 then "\\b"
  else if c.toNat = 12 then "\\f"
  else if c.toNat < 32 then
    "\\u00" ++ String.mk [hexDigit (c.toNat / 16), hexDigit (c.toNat % 16)]
  else String.mk [c]

/-- JSON string literal rendering: quotes plus escaping. -/
def jsonQuote (s : String) : String :=
  "\"" ++ String.join (s.data.map escapeChar) ++ "\""

mutual

/-- `JSON.stringify(v)` — compact, no whitespace. -/
def stringifyCompact : Json → String
  | .null => "null"
  | .bool b => cond b "true" "false"
  | .num n => toString n
  | .str s => jsonQuote s
  | .arr xs => "[" ++ compactItems xs ++ "]"
  | .obj fs => "\x7b" ++ compactFields fs ++ "\x7d"

def compactItems : List Json → String
  | [] => ""
  | [x] => stringifyCompact x
  | x :: xs => stringifyCompact x ++ "," ++ compactItems xs

def compactFields : List (String × Json) → String
  | [] => ""
  | [(k, v)] => jsonQuote k ++ ":" ++ stringifyCompact v
  | (k, v) :: fs => jsonQuote k ++ ":" ++ stringifyCompact v ++ "," ++ compactFields fs

end

mutual

/-- `JSON.stringify(v, null, 2)` — pretty-printed with two-space indent;
`ind` is the indentation of the enclosing value. -/
def stringify2 (ind : String) : Json → String
  | .null => "null"
  | .bool b => cond b "true" "false"
  | .num n => toString n
  | .str s => jsonQuote s
  | .arr [] => "[]"
  | .arr (x :: xs) =>
      "[\n" ++ items2 (ind ++ "  ") (x :: xs) ++ "\n" ++ ind ++ "]"
  | .obj [] => "\x7b\x7d"
  | .obj (f :: fs) =>
      "\x7b\n" ++ fields2 (ind ++ "  ") (f :: fs) ++ "\n" ++ ind ++ "\x7d"

def items2 (ind : String) : List Json → String
  | [] => ""
  | [x] => ind ++ stringify2 ind x
  | x :: xs => ind ++ stringify2 ind x ++ ",\n" ++ items2 ind xs

def fields2 (ind : String) : List (String × Json) → String
  | [] => ""
  | [(k, v)] => ind ++ jsonQuote k ++ ": " ++ stringify2 ind v
  | (k, v) :: fs =>
      ind ++ jsonQuote k ++ ": " ++ stringify2 ind v ++ ",\n" ++ fields2 ind fs

end

/-- Split a string into its printed terminal lines at newline characters. -/
def splitNl : List Char → List (List Char)
  | [] => [[]]
  | c :: cs =>
    match splitNl cs with
    | [] => [[]]
    | r :: rs => if c = '\n' then [] :: r :: rs else (c :: r) :: rs

/-- Printed lines of a (possibly multi-line) `console.log` payload. -/
def outLines (s : String) : List String :=
  (splitNl s.data).map String.mk

/-! ## Config store (`src/config.js`)

The `conf` schema gives every setting a typed default; `tokenExpiry`
is an epoch-milliseconds number, modelled as `Int` (as is `Date.now()`). -/

/-- The persisted configuration mapping with its schema defaults. -/
structure Config where
  apiKey : String := ""
  clientId : String := ""
  clientSecret : String := ""
  accessToken : String := ""
  tokenExpiry : Int := 0
  baseUrl : String := "https://platform.climate.com"

/-- `isConfigured()`: `!!(apiKey)` — a schema-typed string is truthy iff
it is non-empty. -/
def isConfigured (cfg : Config) : Bool :=
  cfg.apiKey != ""

/-- `hasValidToken()`; `now` models `Date.now()` in epoch milliseconds. -/
def hasValidToken (cfg : Config) (now : Int) : Bool :=
  if cfg.accessToken = "" then false
  else cfg.tokenExpiry > now + 60000

/-! ## API client (`src/api.js`, inlined at the end of `README.md`) -/

/-- `const BASE_URL = 'https://platform.climate.com'`. -/
def BASE_URL : String := "https://platform.climate.com"

/-- The axios instance settings produced by `getClient()`. -/
structure ClientSettings where
  baseURL : String
  headers : List (String × String)

/-- `getClient()`: fixed base URL plus bearer-token headers. -/
def getClient (cfg : Config) : ClientSettings :=
  { baseURL := BASE_URL
    headers :=
      [ ("Authorization", "Bearer " ++ cfg.apiKey)
      , ("Accept", "application/json")
      , ("Content-Type", "application/json") ] }

/-- The error taxonomy realised by `handleApiError`'s distinct throw
sites; `apiError` carries the status and the server-supplied message
part; `propagate` rethrows the original error unchanged. -/
inductive ClimateError where
  | authenticationError
  | permissionError
  | notFoundError
  | rateLimitError
  | apiError (status : Nat) (serverMessage : String)
  | networkError
  | propagate

/-- The message text of each thrown `Error` (source strings);
`propagate` carries the original error, hence no new message. -/
def errorMessage : ClimateError → Option String
  | .authenticationError => some "Authentication failed. Check your API key."
  | .permissionError => some "Access forbidden. Check your API permissions."
  | .notFoundError => some "Resource not found."
  | .rateLimitError => some "Rate limit exceeded. Please wait before retrying."
  | .apiError st msg => some ("API Error (" ++ toString st ++ "): " ++ msg)
  | .networkError =>
      some "No response from Climate FieldView API. Check your internet connection."
  | .propagate => none

/-- The shape of an axios failure: `response` is present (with status and
decoded body) when the server answered with a failure status;
`hasRequest` holds when the request was sent but no response arrived. -/
structure AxiosFailure where
  response : Option (Nat × Json)
  hasRequest : Bool

/-- `data?.message || data?.error || JSON.stringify(data)` followed by the
template-literal coercion of the selected value. -/
def serverMessageOf (data : Json) : String :=
  if jsTruthyOpt (jsMemberOpt data "message") then
    jsDisplay ((jsMemberOpt data "message").getD .null)
  else if jsTruthyOpt (jsMemberOpt data "error") then
    jsDisplay ((jsMemberOpt data "error").getD .null)
  else stringifyCompact data

/-- `handleApiError(error)` from `src/api.js`: classify an axios failure
into the thrown error, checking `error.response` status codes in source
order, then `error.request`, else rethrowing. -/
def handleApiError (e : AxiosFailure) : ClimateError :=
  match e.response with
  | some (status, data) =>
    if status = 401 then .authenticationError
    else if status = 403 then .permissionError
    else if status = 404 then .notFoundError
    else if status = 429 then .rateLimitError
    else .apiError status (serverMessageOf data)
  | none =>
    if e.hasRequest then .networkError else .propagate

/-- Modelled from the claim's words (C1): status checked in the order
401, 403, 404, 429; any other status with a response maps to `apiError`
whose message is `body.message`, else `body.error`, else the stringified
body; request sent with no response maps to `networkError`; any other
failure propagates as-is. -/
def errorMappingSpec (e : AxiosFailure) : ClimateError :=
  match e.response with
  | some (status, body) =>
    if status = 401 then .authenticationError
    else if status = 403 then .permissionError
    else if status = 404 then .notFoundError
    else if status = 429 then .rateLimitError
    else
      .apiError status
        (if jsTruthyOpt (jsMemberOpt body "message") then
          jsDisplay ((jsMemberOpt body "message").getD .null)
        else if jsTruthyOpt (jsMemberOpt body "error") then
          jsDisplay ((jsMemberOpt body "error").getD .null)
        else
          stringifyCompact body)
  | none =>
    if e.hasRequest then .networkError else .propagate

/-- An HTTP request as issued by the api functions: method, path, and the
`limit` query parameter when one is sent. -/
structure Request where
  method : String
  path : String
  limit : Option Int

/-- `listFields({ limit = 50 } = {})`: one GET with `params: { limit }`. -/
def listFields (limit : Option Int) : Request :=
  ⟨"GET", "/v4/fields", some (limit.getD 50)⟩

/-- `getField(fieldId)`. -/
def getField (fieldId : String) : Request :=
  ⟨"GET", "/v4/fields/" ++ fieldId, none⟩

/-- `createField({name, acres, boundary})`: one POST (body not modelled —
no claim mentions it). -/
def createField : Request :=
  ⟨"POST", "/v4/fields", none⟩

/-- `listFarms({ limit = 50 } = {})`. -/
def listFarms (limit : Option Int) : Request :=
  ⟨"GET", "/v4/farms", some (limit.getD 50)⟩

/-- `getFarm(farmId)`. -/
def getFarm (farmId : String) : Request :=
  ⟨"GET", "/v4/farms/" ++ farmId, none⟩

/-- `listBoundaries({ limit = 50 } = {})`. -/
def listBoundaries (limit : Option Int) : Request :=
  ⟨"GET", "/v4/boundaries", some (limit.getD 50)⟩

/-- `getBoundary(boundaryId)`. -/
def getBoundary (boundaryId : String) : Request :=
  ⟨"GET", "/v4/boundaries/" ++ boundaryId, none⟩

/-- `listHarvestActivities({ limit = 50 } = {})`. -/
def listHarvestActivities (limit : Option Int) : Request :=
  ⟨"GET", "/v4/activitySummaries/harvest", some (limit.getD 50)⟩

/-- `getHarvestActivity(activityId)`. -/
def getHarvestActivity (activityId : String) : Request :=
  ⟨"GET", "/v4/activitySummaries/harvest/" ++ activityId, none⟩

/-- `listPlantingActivities({ limit = 50 } = {})`. -/
def listPlantingActivities (limit : Option Int) : Request :=
  ⟨"GET", "/v4/activitySummaries/planting", some (limit.getD 50)⟩

/-- `getPlantingActivity(activityId)`. -/
def getPlantingActivity (activityId : String) : Request :=
  ⟨"GET", "/v4/activitySummaries/planting/" ++ activityId, none⟩

/-! ## Table renderer (`printTable` in `src/index.js`)

Rows are records (string-keyed mappings, per the spec's §3 data model);
a missing key models a JavaScript `undefined` member.  Column formatters
at every call site return strings, so the `String(...)` coercion around
the formatter result is the identity and the formatter field is typed
`Option Json → String` directly. -/

/-- A record row: the fields of the JSON object backing it. -/
def JsRecord := List (String × Json)

/-- `row[col.key]` on a record: `none` models `undefined`. -/
def rowGet (row : JsRecord) (k : String) : Option Json :=
  (row.find? (fun p => p.1 = k)).map (fun p => p.2)

/-- A column spec `{key, label, format}`. -/
structure Column where
  key : String
  label : String
  format : Option (Option Json → String)

/-- `String(col.format ? col.format(row[col.key], row) : (row[col.key] ?? ''))`:
the formatted cell text before truncation and padding. -/
def cellValue (col : Column) (row : JsRecord) : String :=
  match col.format with
  | some f => f (rowGet row col.key)
  | none =>
    match rowGet row col.key with
    | none => ""
    | some .null => ""
    | some v => jsDisplay v

/-- The per-column width loop body: start at the label length, raise to
each row's formatted-value length, then cap at 40
(`Math.min(widths[col.key], 40)`). -/
def colWidth (col : Column) (data : List JsRecord) : Nat :=
  min (data.foldl (fun w row => max w (jsLen (cellValue col row))) (jsLen col.label)) 40

/-- The `widths` dictionary: one entry written per column, keyed by
`col.key`; a later column with the same key overwrites the earlier one
(most recent write is found first). -/
def computeWidths (data : List JsRecord) (cols : List Column) : List (String × Nat) :=
  cols.foldl (fun ws col => (col.key, colWidth col data) :: ws) []

/-- Dictionary read `widths[key]` (most recent write wins). -/
def widthOf : List (String × Nat) → String → Nat
  | [], _ => 0
  | (k, v) :: ws, key => if k = key then v else widthOf ws key

/-- Header: labels padded to the column widths, joined by two spaces. -/
def headerLine (data : List JsRecord) (cols : List Column) : String :=
  joinSep "  " (cols.map (fun col => jsPadEnd col.label (widthOf (computeWidths data cols) col.key)))

/-- Separator: a dash rule of the header's length. -/
def sepLine (data : List JsRecord) (cols : List Column) : String :=
  String.mk (List.replicate (jsLen (headerLine data cols)) '─')

/-- One rendered cell: `val.substring(0, width).padEnd(width)`. -/
def cellRendered (col : Column) (row : JsRecord) (w : Nat) : String :=
  jsPadEnd (jsSub (cellValue col row) w) w

/-- One data row: truncated-and-padded cells joined by two spaces. -/
def rowLine (data : List JsRecord) (cols : List Column) (row : JsRecord) : String :=
  joinSep "  " (cols.map (fun col => cellRendered col row (widthOf (computeWidths data cols) col.key)))

/-- `printTable(data, columns)`: the printed lines.  Cell texts at the
call sites contain no newline, so each list element is one terminal
line; the final `console.log` payload starts with a newline, printed
as an empty line followed by the count line. -/
def printTable (data : List JsRecord) (cols : List Column) : List String :=
  if data.isEmpty then ["No results found."]
  else
    headerLine data cols :: sepLine data cols ::
      data.map (rowLine data cols) ++ ["", toString data.length ++ " result(s)"]

/-! ## Record extraction (`data.results || data.data || (Array.isArray(data) ? data : [data])`) -/

/-- `Array.isArray`. -/
def isArray : Json → Bool
  | .arr _ => true
  | _ => false

/-- The extraction expression of every `list` action.  The two member
accesses are plain (not optional-chaining), so a `null` response body
throws a `TypeError`, modelled by the `Except.error` branch. -/
def jsExtract (data : Json) : Except String Json :=
  match jsMemberChecked data "results" with
  | .error e => .error e
  | .ok r =>
    if jsTruthyOpt r then .ok (r.getD .null)
    else
      match jsMemberChecked data "data" with
      | .error e => .error e
      | .ok d =>
        if jsTruthyOpt d then .ok (d.getD .null)
        else .ok (if isArray data then data else .arr [data])

/-! ## Command layer (`src/index.js`)

Each command action is modelled as the sequence of observable events it
produces: printed stdout lines, printed stderr lines, issued HTTP
requests, and process exits.  `process.exit` terminates the process, so
nothing after an `exit` event is emitted.  Spinner UI, and colorization,
are out of scope per the spec.  Each action is evaluated against a mocked
resolved response body `resp : Json`; the rejected-promise paths flow
through `handleApiError`, which is modelled separately. -/

/-- One observable step of a command invocation. -/
inductive Event where
  | outLine (s : String)
  | errLine (s : String)
  | request (r : Request)
  | exitEv (code : Nat)

/-- The parsed CLI options a subcommand action can receive.  `limit`
models `parseInt(options.limit)` with commander's declared default of
`'50'`. -/
structure Args where
  limit : Int := 50
  id : String := ""
  name : String := ""
  jsonFlag : Bool := false

/-- `console.log(a, b)`: the two arguments joined by one space. -/
def console2 (a b : String) : String := a ++ " " ++ b

/-- What `requireAuth()` emits before `process.exit(1)` when the API key
is not configured: `printError(...)` then the two hint lines. -/
def configErrorEvents : List Event :=
  [ .errLine "✗ Climate FieldView credentials not configured."
  , .outLine ""
  , .outLine "Run the following to configure:"
  , .outLine "  climatecom config set --api-key <key>"
  , .exitEv 1 ]

/-- `requireAuth()` at the top of every authenticated action: when the
configuration is present the body runs; otherwise the fixed message is
printed and the process exits before anything else happens. -/
def requireAuthGate (cfg : Config) (body : List Event) : List Event :=
  if isConfigured cfg then body else configErrorEvents

/-- `printJson(data)`: `JSON.stringify(data, null, 2)` printed, one event
per terminal line. -/
def jsonLines (v : Json) : List Event :=
  (outLines (stringify2 "" v)).map .outLine

/-- Call-site formatter `(v) => v ? String(v).substring(0, 16) : 'N/A'`. -/
def idFormat : Option Json → String
  | some v => if jsTruthy v then jsSub (jsDisplay v) 16 else "N/A"
  | none => "N/A"

/-- Call-site formatter `(v) => v || 'N/A'`. -/
def orNAFormat : Option Json → String
  | some v => if jsTruthy v then jsDisplay v else "N/A"
  | none => "N/A"

/-- Call-site formatter `(v) => v !== undefined ? v.toFixed(2) : 'N/A'`;
numbers are modelled as integers, so `toFixed(2)` appends `.00`
(non-numeric defined values, which would throw in JavaScript, are not
reached by any claim and are displayed verbatim). -/
def toFixed2Format : Option Json → String
  | some (.num n) => toString n ++ ".00"
  | some v => jsDisplay v
  | none => "N/A"

/-- Call-site formatter `(v) => v !== undefined ? String(v) : 'N/A'`. -/
def strCoerceFormat : Option Json → String
  | some v => jsDisplay v
  | none => "N/A"

/-- Call-site formatter `(v) => v ? new Date(v).toLocaleDateString() : 'N/A'`;
locale-dependent date rendering is not representable, the raw value
stands in (no claim evaluates it). -/
def dateFormat : Option Json → String
  | some v => if jsTruthy v then jsDisplay v else "N/A"
  | none => "N/A"

/-- Columns of `fields list`. -/
def fieldsColumns : List Column :=
  [ ⟨"id", "ID", some idFormat⟩
  , ⟨"name", "Name", some orNAFormat⟩
  , ⟨"acres", "Acres", some toFixed2Format⟩
  , ⟨"farmName", "Farm", some orNAFormat⟩ ]

/-- Columns of `farms list`. -/
def farmsColumns : List Column :=
  [ ⟨"id", "ID", some idFormat⟩
  , ⟨"name", "Name", some orNAFormat⟩
  , ⟨"fieldCount", "Fields", some strCoerceFormat⟩ ]

/-- Columns of `boundaries list`. -/
def boundariesColumns : List Column :=
  [ ⟨"id", "ID", some idFormat⟩
  , ⟨"fieldName", "Field", some orNAFormat⟩
  , ⟨"acres", "Acres", some toFixed2Format⟩ ]

/-- Columns of `harvest list` and `planting list`. -/
def activityColumns : List Column :=
  [ ⟨"id", "ID", some idFormat⟩
  , ⟨"fieldName", "Field", some orNAFormat⟩
  , ⟨"crop", "Crop", some orNAFormat⟩
  , ⟨"startTime", "Start", some dateFormat⟩
  , ⟨"area", "Area (ac)", some toFixed2Format⟩ ]

/-- `!data || data.length === 0` on an arbitrary extracted value. -/
def jsFalsyOrLenZero (v : Json) : Bool :=
  !jsTruthy v ||
    (match v with
     | .arr xs => xs.isEmpty
     | .str s => s.isEmpty
     | _ => false)

/-- View one extracted element as a record for rendering; `null` rows
throw on member access (`none`), and primitive rows read every column
key as `undefined`. -/
def toRecord : Json → Option JsRecord
  | .obj fs => some fs
  | .null => none
  | .arr _ => some []
  | .str _ => some []
  | .num _ => some []
  | .bool _ => some []

/-- `printTable` applied to the dynamically-typed extraction result: the
empty/falsy check comes first; a non-array collection, or a `null` row,
raises a `TypeError` that the action's catch turns into an error exit
(paths never reached by the documented response shapes). -/
def renderList (v : Json) (cols : List Column) : List Event :=
  if jsFalsyOrLenZero v then [.outLine "No results found."]
  else
    match v with
    | .arr xs =>
      match xs.mapM toRecord with
      | some rows => (printTable rows cols).map .outLine
      | none => [.errLine "✗ TypeError", .exitEv 1]
    | _ => [.errLine "✗ TypeError", .exitEv 1]

/-- The shared non-json tail of every `list` action: extract, then render;
a `TypeError` from extraction is caught, printed, and exits 1. -/
def listTail (resp : Json) (cols : List Column) : List Event :=
  match jsExtract resp with
  | .ok v => renderList v cols
  | .error m => [.errLine ("✗ " ++ m), .exitEv 1]

/-- The body of a `list` action after `requireAuth`: one request, then
either `printJson` of the raw body or the extraction-and-table path. -/
def listBody (req : Request) (cols : List Column) (a : Args) (resp : Json) : List Event :=
  .request req ::
    (if a.jsonFlag then jsonLines resp else listTail resp cols)

/-- `field.id || fieldId` style fallback display for detail lines. -/
def jsOrStr (v : Option Json) (fallback : String) : String :=
  if jsTruthyOpt v then jsDisplay (v.getD .null) else fallback

/-- `x !== undefined ? x.toFixed(2) + ' acres' : 'N/A'` detail text. -/
def acresDetail (v : Option Json) : String :=
  match v with
  | none => "N/A"
  | some (.num n) => toString n ++ ".00 acres"
  | some w => jsDisplay w ++ " acres"

/-- Detail lines of `fields get` (non-json path). -/
def fieldDetailLines (fieldId : String) (resp : Json) : List Event :=
  [ .outLine "", .outLine "Field Details", .outLine ""
  , .outLine (console2 "ID:    " (jsOrStr (jsMemberOpt resp "id") fieldId))
  , .outLine (console2 "Name:  " (jsOrStr (jsMemberOpt resp "name") "N/A"))
  , .outLine (console2 "Acres: " (acresDetail (jsMemberOpt resp "acres")))
  , .outLine (console2 "Farm:  " (jsOrStr (jsMemberOpt resp "farmName") "N/A"))
  , .outLine "" ]

/-- Detail lines of `farms get` (non-json path). -/
def farmDetailLines (farmId : String) (resp : Json) : List Event :=
  [ .outLine "", .outLine "Farm Details", .outLine ""
  , .outLine (console2 "ID:     " (jsOrStr (jsMemberOpt resp "id") farmId))
  , .outLine (console2 "Name:   " (jsOrStr (jsMemberOpt resp "name") "N/A"))
  , .outLine (console2 "Fields: "
      (match jsMemberOpt resp "fieldCount" with
       | none => "N/A"
       | some v => jsDisplay v))
  , .outLine "" ]

/-- Detail lines of `boundaries get` (non-json path). -/
def boundaryDetailLines (boundaryId : String) (resp : Json) : List Event :=
  [ .outLine "", .outLine "Boundary Details", .outLine ""
  , .outLine (console2 "ID:    " (jsOrStr (jsMemberOpt resp "id") boundaryId))
  , .outLine (console2 "Field: " (jsOrStr (jsMemberOpt resp "fieldName") "N/A"))
  , .outLine (console2 "Acres: " (acresDetail (jsMemberOpt resp "acres")))
  , .outLine "" ]

/-- Detail lines of `harvest get` / `planting get` (non-json path);
`toLocaleString` date rendering is represented by the raw value. -/
def activityDetailLines (title : String) (activityId : String) (resp : Json) : List Event :=
  [ .outLine "", .outLine title, .outLine ""
  , .outLine (console2 "ID:    " (jsOrStr (jsMemberOpt resp "id") activityId))
  , .outLine (console2 "Field: " (jsOrStr (jsMemberOpt resp "fieldName") "N/A"))
  , .outLine (console2 "Crop:  " (jsOrStr (jsMemberOpt resp "crop") "N/A"))
  , .outLine (console2 "Start: "
      (if jsTruthyOpt (jsMemberOpt resp "startTime") then
        jsDisplay ((jsMemberOpt resp "startTime").getD .null)
      else "N/A"))
  , .outLine (console2 "Area: "
      (match jsMemberOpt resp "area" with
       | none => "N/A"
       | some (.num n) => toString n ++ ".00 acres"
       | some w => jsDisplay w ++ " acres"))
  , .outLine "" ]

/-- The body of a `get` action: one request, then json or detail lines. -/
def getBody (req : Request) (a : Args) (resp : Json) (detail : List Event) : List Event :=
  .request req :: (if a.jsonFlag then jsonLines resp else detail)

/-- The body of `fields create`: one POST, then json output or the
success message plus created id. -/
def createBody (a : Args) (resp : Json) : List Event :=
  .request createField ::
    (if a.jsonFlag then jsonLines resp
     else
       [ .outLine ("✓ " ++ "Field created: " ++ a.name)
       , .outLine (console2 "Field ID: " (jsOrStr (jsMemberOpt resp "id") "N/A")) ])

/-- The authenticated subcommands (every fields/farms/boundaries/harvest/
planting subcommand registers `requireAuth()` as its first step). -/
inductive AuthCmd where
  | fieldsList | fieldsGet | fieldsCreate
  | farmsList | farmsGet
  | boundariesList | boundariesGet
  | harvestList | harvestGet
  | plantingList | plantingGet

/-- One authenticated command invocation: `requireAuth()` gates the body,
which issues its single request and renders the (mocked) response. -/
def runCmd : AuthCmd → Args → Config → Json → List Event
  | .fieldsList, a, cfg, resp =>
      requireAuthGate cfg (listBody (listFields (some a.limit)) fieldsColumns a resp)
  | .fieldsGet, a, cfg, resp =>
      requireAuthGate cfg (getBody (getField a.id) a resp (fieldDetailLines a.id resp))
  | .fieldsCreate, a, cfg, resp =>
      requireAuthGate cfg (createBody a resp)
  | .farmsList, a, cfg, resp =>
      requireAuthGate cfg (listBody (listFarms (some a.limit)) farmsColumns a resp)
  | .farmsGet, a, cfg, resp =>
      requireAuthGate cfg (getBody (getFarm a.id) a resp (farmDetailLines a.id resp))
  | .boundariesList, a, cfg, resp =>
      requireAuthGate cfg (listBody (listBoundaries (some a.limit)) boundariesColumns a resp)
  | .boundariesGet, a, cfg, resp =>
      requireAuthGate cfg (getBody (getBoundary a.id) a resp (boundaryDetailLines a.id resp))
  | .harvestList, a, cfg, resp =>
      requireAuthGate cfg (listBody (listHarvestActivities (some a.limit)) activityColumns a resp)
  | .harvestGet, a, cfg, resp =>
      requireAuthGate cfg
        (getBody (getHarvestActivity a.id) a resp (activityDetailLines "Harvest Activity" a.id resp))
  | .plantingList, a, cfg, resp =>
      requireAuthGate cfg (listBody (listPlantingActivities (some a.limit)) activityColumns a resp)
  | .plantingGet, a, cfg, resp =>
      requireAuthGate cfg
        (getBody (getPlantingActivity a.id) a resp (activityDetailLines "Planting Activity" a.id resp))

/-- The HTTP requests among a trace's events. -/
def requestsOf (events : List Event) : List Request :=
  events.filterMap (fun e => match e with | .request r => some r | _ => none)

/-- The stdout lines among a trace's events. -/
def stdoutOf (events : List Event) : List String :=
  events.filterMap (fun e => match e with | .outLine s => some s | _ => none)

/-- The five `list` operations of the API client. -/
inductive ListOp where
  | fields | farms | boundaries | harvest | planting

/-- The api function of each `list` operation. -/
def listReq : ListOp → Option Int → Request
  | .fields, l => listFields l
  | .farms, l => listFarms l
  | .boundaries, l => listBoundaries l
  | .harvest, l => listHarvestActivities l
  | .planting, l => listPlantingActivities l

/-- The endpoint path of each `list` operation. -/
def listPath : ListOp → String
  | .fields => "/v4/fields"
  | .farms => "/v4/farms"
  | .boundaries => "/v4/boundaries"
  | .harvest => "/v4/activitySummaries/harvest"
  | .planting => "/v4/activitySummaries/planting"

/-- The CLI subcommand driving each `list` operation. -/
def listCmdOf : ListOp → AuthCmd
  | .fields => .fieldsList
  | .farms => .farmsList
  | .boundaries => .boundariesList
  | .harvest => .harvestList
  | .planting => .plantingList

/-! ## Theorems -/

/-- Claim C1: for every HTTP failure the error mapping checks the status
in order 401 → authentication, 403 → permission, 404 → not-found,
429 → rate-limit (regardless of body); any other status with a response
maps to an API error whose server message is `body.message`, else
`body.error`, else the stringified body; request-sent-no-response maps to
the network error; anything else propagates as-is.  `handleApiError`
(embedded from the source) coincides with `errorMappingSpec` (written
from the claim's words) on every failure. -/
theorem error_mapping_matches_spec :
    ∀ e : AxiosFailure, handleApiError e = errorMappingSpec e := by
  intro e
  rcases e with ⟨_ | ⟨s, d⟩, r⟩ <;> rfl

/-- Claim C8: `hasValidToken()` returns true iff an access token is
present (non-empty) and the stored expiry lies more than 60 seconds
(60000 ms) in the future relative to the current time. -/
theorem hasValidToken_iff (cfg : Config) (now : Int) :
    hasValidToken cfg now = true ↔
      (cfg.accessToken ≠ "" ∧ cfg.tokenExpiry - now > 60000) := by
  unfold hasValidToken
  split_ifs with h
  · simp [h]
  · simp [h]
    omega

/-- Witness for C8: a concrete configuration whose token is valid. -/
theorem hasValidToken_iff_witness :
    hasValidToken { accessToken := "tok", tokenExpiry := 100000 } 0 = true :=
  (hasValidToken_iff { accessToken := "tok", tokenExpiry := 100000 } 0).mpr
    ⟨by decide, by decide⟩

/-- Claim C10: every request uses the fixed base URL
`https://platform.climate.com`; the configured `baseUrl` setting does not
influence the client, so two runs differing only in the stored `baseUrl`
issue requests against the same base URL. -/
theorem base_url_fixed (cfg : Config) (b : String) :
    (getClient cfg).baseURL = "https://platform.climate.com"
    ∧ getClient { cfg with baseUrl := b } = getClient cfg :=
  ⟨rfl, rfl⟩

/-- Requests contributed by a cons cell. -/
theorem requestsOf_cons_request (r : Request) (rest : List Event) :
    requestsOf (.request r :: rest) = r :: requestsOf rest := by
  simp [requestsOf]

theorem requestsOf_map_outLine (l : List String) :
    requestsOf (l.map .outLine) = [] := by
  induction l with
  | nil => rfl
  | cons x xs ih => simp [requestsOf]

theorem requestsOf_renderList (v : Json) (cols : List Column) :
    requestsOf (renderList v cols) = [] := by
  unfold renderList
  split
  · rfl
  · split
    · split
      · exact requestsOf_map_outLine _
      · rfl
    · rfl

theorem requestsOf_listTail (resp : Json) (cols : List Column) :
    requestsOf (listTail resp cols) = [] := by
  unfold listTail
  split
  · exact requestsOf_renderList _ _
  · rfl

theorem requestsOf_listBody (req : Request) (cols : List Column) (a : Args) (resp : Json) :
    requestsOf (listBody req cols a resp) = [req] := by
  unfold listBody
  rw [requestsOf_cons_request]
  split
  · rw [show requestsOf (jsonLines resp) = [] from requestsOf_map_outLine _]
  · rw [requestsOf_listTail]

/-- Claim C9: every `list` operation issues exactly one request whose
`limit` query parameter is the configured value, and `limit` defaults to
50 when the parameter is omitted; at the CLI level a configured `list`
invocation issues exactly that one request. -/
theorem list_single_request_limit (op : ListOp) (L : Int) (a : Args)
    (cfg : Config) (resp : Json) (hcfg : isConfigured cfg = true) :
    listReq op (some L) = ⟨"GET", listPath op, some L⟩
    ∧ listReq op none = ⟨"GET", listPath op, some 50⟩
    ∧ requestsOf (runCmd (listCmdOf op) a cfg resp) = [listReq op (some a.limit)] := by
  refine ⟨by cases op <;> rfl, by cases op <;> rfl, ?_⟩
  cases op <;>
    simp only [listCmdOf, runCmd, requireAuthGate, hcfg, if_true, listReq] <;>
    exact requestsOf_listBody _ _ _ _

/-- Witness for C9: a concrete configured `farms list` run issues exactly
one request with `limit=7`. -/
theorem list_single_request_limit_witness :
    listReq .farms (some 7) = ⟨"GET", listPath .farms, some 7⟩
    ∧ listReq .farms none = ⟨"GET", listPath .farms, some 50⟩
    ∧ requestsOf (runCmd (listCmdOf .farms) { limit := 7 } { apiKey := "k" } .null)
        = [listReq .farms (some (Args.limit { limit := 7 }))] :=
  list_single_request_limit .farms 7 { limit := 7 } { apiKey := "k" } .null (by decide)

/-- Evaluation of `jsExtract` on an object body, by iota reduction. -/
theorem jsExtract_obj (fs : List (String × Json)) :
    jsExtract (.obj fs) =
      if jsTruthyOpt (lookupField fs "results") then
        .ok ((lookupField fs "results").getD .null)
      else if jsTruthyOpt (lookupField fs "data") then
        .ok ((lookupField fs "data").getD .null)
      else .ok (.arr [.obj fs]) := by
  rfl

/-- Claim C3: record extraction is total over the four documented response
shapes — `{results:[...]}` yields the `results` array, `{data:[...]}`
(with no `results`) yields the `data` array, a bare array yields itself,
and any other bare object is wrapped as a one-element array; each case
returns without an exception (`Except.ok`). -/
theorem extraction_total_on_documented_shapes
    (fs rest : List (String × Json)) (xs : List Json) :
    jsExtract (.obj (("results", .arr xs) :: rest)) = .ok (.arr xs)
    ∧ (lookupField fs "results" = none → lookupField fs "data" = some (.arr xs) →
        jsExtract (.obj fs) = .ok (.arr xs))
    ∧ jsExtract (.arr xs) = .ok (.arr xs)
    ∧ (lookupField fs "results" = none → lookupField fs "data" = none →
        jsExtract (.obj fs) = .ok (.arr [.obj fs])) := by
  refine ⟨rfl, ?_, rfl, ?_⟩
  · intro h1 h2
    rw [jsExtract_obj, h1, h2]
    rfl
  · intro h1 h2
    rw [jsExtract_obj, h1, h2]
    rfl

/-- Witness for C3: the four documented shapes at concrete inputs. -/
theorem extraction_total_witness :
    jsExtract (.obj [("results", .arr [.num 1])]) = .ok (.arr [.num 1])
    ∧ jsExtract (.obj [("data", .arr [.num 1])]) = .ok (.arr [.num 1])
    ∧ jsExtract (.arr [.num 1]) = .ok (.arr [.num 1])
    ∧ jsExtract (.obj [("name", .str "x")]) = .ok (.arr [.obj [("name", .str "x")]]) :=
  ⟨(extraction_total_on_documented_shapes [] [] [.num 1]).1,
   (extraction_total_on_documented_shapes [("data", .arr [.num 1])] [] [.num 1]).2.1 rfl rfl,
   (extraction_total_on_documented_shapes [] [] [.num 1]).2.2.1,
   (extraction_total_on_documented_shapes [("name", .str "x")] [] []).2.2.2 rfl rfl⟩

/-- Claim C4: on an empty sequence the renderer prints only the
"no results" notice; on N ≥ 1 records it prints a header line, a
separator rule, exactly N data rows, and a trailing count line reading
exactly `N result(s)` (preceded by the blank line its `console.log`
payload starts with). -/
theorem printTable_shape (data : List JsRecord) (cols : List Column) :
    (data = [] → printTable data cols = ["No results found."])
    ∧ (data ≠ [] →
        printTable data cols =
          headerLine data cols :: sepLine data cols ::
            data.map (rowLine data cols) ++ ["", toString data.length ++ " result(s)"]
        ∧ (data.map (rowLine data cols)).length = data.length) := by
  constructor
  · intro h; subst h; rfl
  · intro h
    cases data with
    | nil => exact absurd rfl h
    | cons x xs =>
      refine ⟨?_, by simp⟩
      simp [printTable]

/-- Witness for C4: one record, one column. -/
theorem printTable_shape_witness :
    printTable [[("x", Json.str "v")]] [⟨"x", "X", none⟩] =
      headerLine [[("x", Json.str "v")]] [⟨"x", "X", none⟩]
        :: sepLine [[("x", Json.str "v")]] [⟨"x", "X", none⟩]
        :: [[("x", Json.str "v")]].map (rowLine [[("x", Json.str "v")]] [⟨"x", "X", none⟩])
        ++ ["", toString (List.length ([[("x", Json.str "v")]] : List JsRecord)) ++ " result(s)"]
    ∧ ([[("x", Json.str "v")]].map (rowLine [[("x", Json.str "v")]] [⟨"x", "X", none⟩])).length
        = List.length ([[("x", Json.str "v")]] : List JsRecord) :=
  (printTable_shape [[("x", Json.str "v")]] [⟨"x", "X", none⟩]).2 (by simp)

/-- Claim C7: every authenticated subcommand checks the configuration
first; with no API key set it prints the fixed configuration-required
message, exits with status 1, and issues no network request. -/
theorem auth_gate_before_network (cmd : AuthCmd) (a : Args) (cfg : Config)
    (resp : Json) (h : cfg.apiKey = "") :
    runCmd cmd a cfg resp = configErrorEvents
    ∧ requestsOf (runCmd cmd a cfg resp) = [] := by
  have hc : isConfigured cfg = false := by simp [isConfigured, h]
  cases cmd <;> exact ⟨by simp [runCmd, requireAuthGate, hc],
    by simp [runCmd, requireAuthGate, hc]; rfl⟩

/-- Witness for C7: `fields list` with the default (empty) configuration. -/
theorem auth_gate_before_network_witness :
    runCmd .fieldsList {} {} .null = configErrorEvents
    ∧ requestsOf (runCmd .fieldsList {} {} .null) = [] :=
  auth_gate_before_network .fieldsList {} {} .null rfl

/-- Counterexample to claim C2: `farms list --json` on the mocked body
`{"results":[{"id":"a1","name":"Farm A"}]}` does not print the
pretty-printed array `[{"id":"a1","name":"Farm A"}]` — the `--json` path
prints the body before the extraction step runs. -/
theorem farms_list_json_prints_envelope_not_array :
    stdoutOf (runCmd .farmsList { limit := 50, jsonFlag := true } { apiKey := "k" }
        (.obj [("results", .arr [.obj [("id", .str "a1"), ("name", .str "Farm A")]])]))
      ≠ [ "["
        , "  \x7b"
        , "    \"id\": \"a1\","
        , "    \"name\": \"Farm A\""
        , "  \x7d"
        , "]" ] := by
  decide

/-- Claim C2 as amended: `farms list --json` on that mocked body prints
exactly the raw decoded body `{"results":[{"id":"a1","name":"Farm A"}]}`
pretty-printed with 2-space indentation. -/
theorem farms_list_json_prints_raw_body :
    stdoutOf (runCmd .farmsList { limit := 50, jsonFlag := true } { apiKey := "k" }
        (.obj [("results", .arr [.obj [("id", .str "a1"), ("name", .str "Farm A")]])]))
      = [ "\x7b"
        , "  \"results\": ["
        , "    \x7b"
        , "      \"id\": \"a1\","
        , "      \"name\": \"Farm A\""
        , "    \x7d"
        , "  ]"
        , "\x7d" ] := by
  decide

/-- Counterexample to claim C6: with no formatter declared and a missing
value, the renderer produces the empty string, not the `N/A`
placeholder (`row[col.key] ?? ''`); the `N/A` placeholders all come
from the call sites' formatters. -/
theorem missing_value_not_na_counterexample :
    cellValue ⟨"a", "A", none⟩ [] = "" ∧ cellValue ⟨"a", "A", none⟩ [] ≠ "N/A" :=
  ⟨rfl, by decide⟩

/-- Claim C6 as amended: a cell is the declared formatter applied to the
looked-up value when one is declared; otherwise the raw value is
string-coerced; and when the value is missing/undefined (or `null`) and
no formatter is declared, the rendered cell is the empty string (then
padded to the column width), not an `N/A` placeholder. -/
theorem cell_formatting_rule (key label : String) (f : Option Json → String)
    (row : JsRecord) :
    cellValue ⟨key, label, some f⟩ row = f (rowGet row key)
    ∧ (rowGet row key = none → cellValue ⟨key, label, none⟩ row = "")
    ∧ (rowGet row key = some .null → cellValue ⟨key, label, none⟩ row = "")
    ∧ (∀ v, rowGet row key = some v → v ≠ .null →
        cellValue ⟨key, label, none⟩ row = jsDisplay v) := by
  refine ⟨rfl, ?_, ?_, ?_⟩
  · intro h; simp [cellValue, h]
  · intro h; simp [cellValue, h]
  · intro v hv hne
    cases v with
    | null => exact absurd rfl hne
    | bool b => simp [cellValue, hv]
    | num n => simp [cellValue, hv]
    | str s => simp [cellValue, hv]
    | arr xs => simp [cellValue, hv]
    | obj fs => simp [cellValue, hv]

/-- Witness for C6 (amended): concrete formatter, missing-value, and
present-value cells. -/
theorem cell_formatting_rule_witness :
    cellValue ⟨"a", "A", some orNAFormat⟩ [("a", .str "x")]
        = orNAFormat (rowGet [("a", .str "x")] "a")
    ∧ cellValue ⟨"b", "B", none⟩ [("a", .str "x")] = ""
    ∧ cellValue ⟨"a", "A", none⟩ [("a", .str "x")] = jsDisplay (.str "x") :=
  ⟨(cell_formatting_rule "a" "A" orNAFormat [("a", .str "x")]).1,
   (cell_formatting_rule "b" "B" orNAFormat [("a", .str "x")]).2.1 rfl,
   (cell_formatting_rule "a" "A" orNAFormat [("a", .str "x")]).2.2.2
     (.str "x") rfl (fun h => nomatch h)⟩

/-- The claim's width formula: `min(40, max(label length, max over rows
of formatted-value length))`. -/
def specWidth (col : Column) (data : List JsRecord) : Nat :=
  min 40 (max (jsLen col.label) ((data.map (fun r => jsLen (cellValue col r))).foldr max 0))

theorem foldl_max_from (l : List Nat) : ∀ a : Nat, l.foldl max a = max a (l.foldr max 0) := by
  induction l with
  | nil => intro a; simp
  | cons x xs ih =>
    intro a
    rw [List.foldl_cons, ih (max a x), List.foldr_cons, Nat.max_assoc]

theorem colWidth_eq_spec (col : Column) (data : List JsRecord) :
    colWidth col data = specWidth col data := by
  unfold colWidth specWidth
  rw [show data.foldl (fun w row => max w (jsLen (cellValue col row))) (jsLen col.label)
        = (data.map (fun r => jsLen (cellValue col r))).foldl max (jsLen col.label) from
      (List.foldl_map _ _ _ _).symm,
    foldl_max_from, Nat.min_comm]

theorem widthOf_untouched (data : List JsRecord) (cs : List Column) :
    ∀ (ws : List (String × Nat)) (k : String), k ∉ cs.map (fun c => c.key) →
      widthOf (cs.foldl (fun ws col => (col.key, colWidth col data) :: ws) ws) k
        = widthOf ws k := by
  induction cs with
  | nil => intro ws k _; rfl
  | cons c cs ih =>
    intro ws k hk
    simp only [List.map_cons, List.mem_cons, not_or] at hk
    rw [List.foldl_cons, ih _ k hk.2]
    show (if c.key = k then colWidth c data else widthOf ws k) = widthOf ws k
    exact if_neg (fun h => hk.1 h.symm)

theorem widthOf_compute (data : List JsRecord) :
    ∀ (cols : List Column) (ws : List (String × Nat)) (col : Column),
      col ∈ cols → (cols.map (fun c => c.key)).Nodup →
      widthOf (cols.foldl (fun ws c => (c.key, colWidth c data) :: ws) ws) col.key
        = colWidth col data := by
  intro cols
  induction cols with
  | nil => intro ws col hmem _; exact absurd hmem (List.not_mem_nil col)
  | cons c cs ih =>
    intro ws col hmem hnd
    simp only [List.map_cons, List.nodup_cons] at hnd
    rw [List.foldl_cons]
    rcases List.mem_cons.mp hmem with rfl | h
    · rw [widthOf_untouched data cs _ _ hnd.1]
      show (if col.key = col.key then colWidth col data else widthOf ws col.key)
        = colWidth col data
      exact if_pos rfl
    · exact ih _ col h hnd.2

/-- Counterexample to claim C5: with two columns sharing the key `"a"`
(labels `AAAAA` and `B`) over one row whose `a` value is `"xx"`, the
`widths` dictionary entry the renderer uses for the first column is the
last write, 2, not `min(40, max(5, 2)) = 5`. -/
theorem column_width_duplicate_key_counterexample :
    widthOf (computeWidths [[("a", Json.str "xx")]]
        [⟨"a", "AAAAA", none⟩, ⟨"a", "B", none⟩]) "a" = 2
    ∧ specWidth ⟨"a", "AAAAA", none⟩ [[("a", Json.str "xx")]] = 5
    ∧ widthOf (computeWidths [[("a", Json.str "xx")]]
          [⟨"a", "AAAAA", none⟩, ⟨"a", "B", none⟩]) "a"
        ≠ specWidth ⟨"a", "AAAAA", none⟩ [[("a", Json.str "xx")]] := by
  refine ⟨rfl, rfl, fun h => ?_⟩
  rw [show widthOf (computeWidths [[("a", Json.str "xx")]]
        [⟨"a", "AAAAA", none⟩, ⟨"a", "B", none⟩]) "a" = 2 from rfl,
      show specWidth ⟨"a", "AAAAA", none⟩ [[("a", Json.str "xx")]] = 5 from rfl] at h
  exact absurd h (by decide)

/-- Claim C5 as amended: provided the declared columns carry pairwise
distinct keys (true of every call site), each column's rendered width is
`min(40, max(label length, max over rows of formatted-value length))`,
and every cell value longer than that width is truncated to exactly that
width when rendered.  (With duplicate keys the dictionary entry of the
last column with that key is used for all of them.) -/
theorem column_width_nodup_keys (cols : List Column) (data : List JsRecord)
    (col : Column) (hmem : col ∈ cols) (hnd : (cols.map (fun c => c.key)).Nodup) :
    widthOf (computeWidths data cols) col.key = specWidth col data
    ∧ ∀ row ∈ data, specWidth col data < jsLen (cellValue col row) →
        cellRendered col row (widthOf (computeWidths data cols) col.key)
          = jsSub (cellValue col row) (specWidth col data)
        ∧ jsLen (jsSub (cellValue col row) (specWidth col data)) = specWidth col data := by
  have hw : widthOf (computeWidths data cols) col.key = specWidth col data :=
    (widthOf_compute data cols [] col hmem hnd).trans (colWidth_eq_spec col data)
  refine ⟨hw, ?_⟩
  intro row hrow hlt
  have hlen : jsLen (jsSub (cellValue col row) (specWidth col data)) = specWidth col data := by
    show ((cellValue col row).data.take (specWidth col data)).length = specWidth col data
    rw [List.length_take]
    exact Nat.min_eq_left (le_of_lt hlt)
  refine ⟨?_, hlen⟩
  rw [hw]
  have hlen' : (List.take (specWidth col data) (cellValue col row).data).length
      = specWidth col data := hlen
  show String.mk (List.take (specWidth col data) (cellValue col row).data
      ++ List.replicate (specWidth col data
          - (List.take (specWidth col data) (cellValue col row).data).length) ' ')
    = jsSub (cellValue col row) (specWidth col data)
  rw [hlen', Nat.sub_self]
  simp [jsSub]

/-- Witness for C5 (amended): a single column of key `a`, label `A`, over
one row whose value is 41 characters long; the width is capped at 40 and
the rendered cell is the 40-character truncation. -/
theorem column_width_nodup_keys_witness :
    widthOf (computeWidths [[("a", Json.str "xxxxxxxxxxxxxxxxxxxxxxxxxxxxxxxxxxxxxxxxx")]]
        [⟨"a", "A", none⟩]) (Column.key ⟨"a", "A", none⟩)
      = specWidth ⟨"a", "A", none⟩
          [[("a", Json.str "xxxxxxxxxxxxxxxxxxxxxxxxxxxxxxxxxxxxxxxxx")]]
    ∧ cellRendered ⟨"a", "A", none⟩ [("a", Json.str "xxxxxxxxxxxxxxxxxxxxxxxxxxxxxxxxxxxxxxxxx")]
        (widthOf (computeWidths [[("a", Json.str "xxxxxxxxxxxxxxxxxxxxxxxxxxxxxxxxxxxxxxxxx")]]
          [⟨"a", "A", none⟩]) (Column.key ⟨"a", "A", none⟩))
      = jsSub (cellValue ⟨"a", "A", none⟩
          [("a", Json.str "xxxxxxxxxxxxxxxxxxxxxxxxxxxxxxxxxxxxxxxxx")])
          (specWidth ⟨"a", "A", none⟩
            [[("a", Json.str "xxxxxxxxxxxxxxxxxxxxxxxxxxxxxxxxxxxxxxxxx")]])
    ∧ jsLen (jsSub (cellValue ⟨"a", "A", none⟩
          [("a", Json.str "xxxxxxxxxxxxxxxxxxxxxxxxxxxxxxxxxxxxxxxxx")])
          (specWidth ⟨"a", "A", none⟩
            [[("a", Json.str "xxxxxxxxxxxxxxxxxxxxxxxxxxxxxxxxxxxxxxxxx")]]))
      = specWidth ⟨"a", "A", none⟩
          [[("a", Json.str "xxxxxxxxxxxxxxxxxxxxxxxxxxxxxxxxxxxxxxxxx")]] := by
  have h := column_width_nodup_keys [⟨"a", "A", none⟩]
    [[("a", Json.str "xxxxxxxxxxxxxxxxxxxxxxxxxxxxxxxxxxxxxxxxx")]]
    ⟨"a", "A", none⟩ (List.mem_singleton.mpr rfl) (by simp)
  have hlt : specWidth ⟨"a", "A", none⟩
      [[("a", Json.str "xxxxxxxxxxxxxxxxxxxxxxxxxxxxxxxxxxxxxxxxx")]]
      < jsLen (cellValue ⟨"a", "A", none⟩
          [("a", Json.str "xxxxxxxxxxxxxxxxxxxxxxxxxxxxxxxxxxxxxxxxx")]) := by
    rw [show specWidth ⟨"a", "A", none⟩
        [[("a", Json.str "xxxxxxxxxxxxxxxxxxxxxxxxxxxxxxxxxxxxxxxxx")]] = 40 from rfl,
      show jsLen (cellValue ⟨"a", "A", none⟩
        [("a", Json.str "xxxxxxxxxxxxxxxxxxxxxxxxxxxxxxxxxxxxxxxxx")]) = 41 from rfl]
    exact Nat.lt_succ_self 40
  have h2 := h.2 [("a", Json.str "xxxxxxxxxxxxxxxxxxxxxxxxxxxxxxxxxxxxxxxxx")]
    (List.mem_singleton.mpr rfl) hlt
  exact ⟨h.1, h2.1, h2.2⟩

end Climatecom
